import Mathlib

/-!
Verification of the behavior-classification and adaptive-policy engine of the
StudyHub backend (src/backend/main.py): the temporal smoother, the learning
event classifier (`AntiGravityOrchestrator.infer_learning_event`), the
intervention gate inside `analyze_focus`, and the plan adapter
(`AntiGravityOrchestrator.adapt_plan`).

Modelling conventions:
* Python dicts with fixed keys become structures.  Fields that the source
  reads with `dict.get(key, default)` and that are absent from the creation
  literal are modelled as structure fields initialised to that default; this
  is observationally identical because every read supplies the same default.
* Python floats are modelled by `ℚ`.  All numeric literals involved
  (0.5, 0.6, 0.8, ...) and all quotients `count/len` with `len ≤ 10` are
  exactly representable as IEEE doubles up to the comparisons performed, so
  the rational model agrees with the float execution on every reachable value
  (in particular `6/10 >= 0.6` holds both as floats and as rationals).
* `datetime` timestamps become `ℚ` numbers of seconds; each request tick uses
  a single time `now` for all of its `datetime.now()` calls.
* The per-user globals `STUDENT_MODELS[u]`, `LEARNING_EVENTS[u]` and the
  `DECISION_LOGS[u]` length are threaded explicitly through the tick
  function; `uuid`/`created_at` fields that no modelled code reads are
  omitted.
* Python's substring test `"distraction" in s` is `containsSub "distraction" s`.
-/

namespace StudyHub

/-- Per-frame state pushed into `status_history`
(src/backend/main.py:4875-4879). -/
structure FrameState where
  is_distracted : Bool
  type : Option String
  face_present : Bool
deriving DecidableEq, Repr

/-- The `behavioral_signals` dict handed to `infer_learning_event`.  Every
field is optional: the classifier reads each one with `.get(key, default)`
(src/backend/main.py:4162-4167). -/
structure BehavioralSignals where
  face_present : Option Bool
  eyes_open : Option Bool
  gaze_stable : Option Bool
  distraction_level : Option ℚ
  time_on_content : Option ℚ
  interaction_count : Option Int
deriving DecidableEq, Repr

/-- A learning event as built by `infer_learning_event`
(src/backend/main.py:4149-4156). -/
structure LearningEvent where
  timestamp : ℚ
  event_type : Option String
  evidence : BehavioralSignals
  confidence : ℚ
  should_intervene : Bool
  intervention_type : Option String
deriving DecidableEq, Repr

/- Constants of `class LearningEventType` (src/backend/main.py:4117-4129). -/
namespace LearningEventType

def SUSTAINED_FOCUS : String := "sustained_focus"

def SHALLOW_ENGAGEMENT : String := "shallow_engagement"

def COGNITIVE_OVERLOAD : String := "cognitive_overload"

def DISTRACTION_PHONE : String := "distraction_phone"

def DISTRACTION_ENVIRONMENT : String := "distraction_environment"

def RECOVERY : String := "recovery"

def CONFUSION_SILENT : String := "confusion_without_asking"

def FATIGUE : String := "fatigue"

def SUCCESSFUL_APPLICATION : String := "successful_application"

def DISENGAGEMENT_POST_EXPLANATION : String := "disengagement_after_explanation"

def ATTENTION_DROP : String := "attention_drop"

end LearningEventType

/-- Auxiliary for Python's substring operator: does `pat` occur inside the
character list? -/
def containsSubAux (pat : List Char) : List Char → Bool
  | [] => pat.isEmpty
  | c :: rest => pat.isPrefixOf (c :: rest) || containsSubAux pat rest

/-- Python's `pat in s` substring test. -/
def containsSub (pat s : String) : Bool :=
  containsSubAux pat.toList s.toList

/-- `AntiGravityOrchestrator.infer_learning_event`
(src/backend/main.py:4138-4206).  Takes the user's full event list
(`LEARNING_EVENTS[user_id]`) and returns the new event together with the
updated event list (the source appends the event to the global list). -/
def infer_learning_event (events : List LearningEvent)
    (behavioral_signals : BehavioralSignals) (timestamp : ℚ) :
    LearningEvent × List LearningEvent :=
  let base : LearningEvent :=
    { timestamp := timestamp
      event_type := none
      evidence := behavioral_signals
      confidence := 0
      should_intervene := false
      intervention_type := none }
  -- history = LEARNING_EVENTS.get(user_id, [])[-10:]
  let history := events.drop (events.length - 10)
  let face_present := behavioral_signals.face_present.getD true
  let eyes_open := behavioral_signals.eyes_open.getD true
  let gaze_stable := behavioral_signals.gaze_stable.getD true
  let distraction_level := behavioral_signals.distraction_level.getD 0.0
  let time_on_content := behavioral_signals.time_on_content.getD 0
  let interaction_count := behavioral_signals.interaction_count.getD 0
  let event :=
    if face_present = false then
      { base with
          event_type := some LearningEventType.DISTRACTION_ENVIRONMENT
          confidence := 0.9
          should_intervene := distraction_level > 0.5
          intervention_type := some "gentle_refocus" }
    else if time_on_content > 120 ∧ interaction_count = 0 then
      { base with
          event_type := some LearningEventType.COGNITIVE_OVERLOAD
          confidence := 0.7
          should_intervene := true
          intervention_type := some "simplify_content" }
    else if time_on_content < 10 ∧ gaze_stable = true then
      { base with
          event_type := some LearningEventType.SHALLOW_ENGAGEMENT
          confidence := 0.6 }
    else if gaze_stable = true ∧ eyes_open = true ∧ time_on_content > 30 then
      { base with
          event_type := some LearningEventType.SUSTAINED_FOCUS
          confidence := 0.85 }
    else base
  let recent_distractions :=
    history.filter (fun e => containsSub "distraction" (e.event_type.getD ""))
  let event2 :=
    if recent_distractions.length > 0 ∧
        event.event_type = some LearningEventType.SUSTAINED_FOCUS then
      { event with
          event_type := some LearningEventType.RECOVERY
          confidence := 0.75 }
    else event
  (event2, events ++ [event2])

/-- `AntiGravityOrchestrator.should_teach` (src/backend/main.py:4246-4277);
only the last five events are consulted (the fetched student model is unused
in the source body). -/
def should_teach (events : List LearningEvent) : Bool × String :=
  let recent := events.drop (events.length - 5)
  let recent_event_types := recent.map (fun e => e.event_type)
  if some LearningEventType.COGNITIVE_OVERLOAD ∈ recent_event_types then
    (false, "Cognitive overload detected - simplify before teaching")
  else if 2 ≤ (recent_event_types.countP
      (fun t => containsSub "distraction" (t.getD ""))) then
    (false, "Multiple distractions detected - wait for attention recovery")
  else if some LearningEventType.SUSTAINED_FOCUS ∈ recent_event_types then
    (true, "Student showing sustained focus - optimal teaching moment")
  else if some LearningEventType.RECOVERY ∈ recent_event_types then
    (true, "Student recovered attention - reinforce with teaching")
  else
    (false, "Insufficient behavioral evidence for teaching readiness")

/-- A task dict inside a plan; `adapt_plan` reads `task.get("priority", 3)`
(src/backend/main.py:4401-4403). -/
structure PlanTask where
  priority : Option Int
deriving DecidableEq, Repr

/-- An adaptation record appended to `plan["adaptations"]`
(src/backend/main.py:4369-4412). -/
structure Adaptation where
  type : String
  change : String
  new_duration : Option Int
  new_break_interval : Option Int
  timestamp : ℚ
deriving DecidableEq, Repr

/-- A focus plan as built by `generate_focus_plan`
(src/backend/main.py:4305-4316); `id`, `user_id`, `created_at`, `goals` are
never read by the modelled logic and are omitted.  `tasks` is absent from the
creation literal and read with default `[]` (src/backend/main.py:4362). -/
structure FocusPlan where
  recommended_duration_minutes : Int
  break_interval_minutes : Int
  break_duration_minutes : Int
  tasks : List PlanTask
  adaptations : List Adaptation
  confidence : ℚ
  rationale : String
deriving DecidableEq, Repr

/-- The trigger-event dict built in `analyze_focus`
(src/backend/main.py:4994-4999); `adapt_plan` reads only `distraction_type`
and `event_type` from it. -/
structure TriggerEvent where
  event_type : Option String
  distraction_type : Option String
  distraction_level : ℚ
  distraction_count : Nat
deriving DecidableEq, Repr

/-- Per-user mutable record `STUDENT_MODELS[user_id]`.  The creation literal
(src/backend/main.py:4862-4867) sets the first three fields; the others are
read elsewhere with `.get(key, default)` and are initialised to exactly those
defaults in `initStudentModel`. -/
structure StudentModel where
  distraction_count : Nat
  total_focus_time : Int
  status_history : List FrameState
  last_log_time : ℚ
  last_intervention_time : ℚ
  last_intervention_type : Option String
  last_distraction_status : Bool
  current_focus_plan : Option FocusPlan
  current_content_time : ℚ
  interaction_count : Int
  sessions_completed : Int
  preferred_work_duration : Int
deriving DecidableEq, Repr

/-- Fresh student model: the dict literal of src/backend/main.py:4862-4867
plus the `.get` defaults of all later reads (main.py:4914-4915, 4927-4930,
4290, 4294, 4987). -/
def initStudentModel : StudentModel :=
  { distraction_count := 0
    total_focus_time := 0
    status_history := []
    last_log_time := 0
    last_intervention_time := 0
    last_intervention_type := none
    last_distraction_status := false
    current_focus_plan := none
    current_content_time := 30
    interaction_count := 1
    sessions_completed := 0
    preferred_work_duration := 25 }

/-- `AntiGravityOrchestrator.generate_focus_plan`
(src/backend/main.py:4279-4335).  Always logs exactly one decision
(main.py:4319); callers of the model account for it. -/
def generate_focus_plan (m : StudentModel) (goal_minutes : Int) : FocusPlan :=
  let avg_focus := m.preferred_work_duration
  let distractions_today := m.distraction_count
  let sessions_completed := m.sessions_completed
  let recommended_duration0 := min avg_focus goal_minutes
  let recommended_duration :=
    if distractions_today > 10 then max 10 (recommended_duration0 - 10)
    else recommended_duration0
  { recommended_duration_minutes := recommended_duration
    break_interval_minutes := recommended_duration
    break_duration_minutes := if recommended_duration ≥ 25 then 5 else 3
    tasks := []
    adaptations := []
    confidence := if sessions_completed > 0 then 0.7 else 0.5
    rationale := "Based on " ++ toString sessions_completed ++
      " previous sessions and " ++ toString distractions_today ++
      " recent distractions" }

/-- Rule bodies of `AntiGravityOrchestrator.adapt_plan`
(src/backend/main.py:4353-4428), reached when the 120-second cooldown does
not fire.  Returns the (possibly mutated) plan and the applied adaptation,
`none` when no rule matched; a decision is logged iff the adaptation is
`some` (main.py:4416-4426). -/
def adapt_plan_rules (now : ℚ) (model_distraction_count : Nat)
    (current_plan : FocusPlan) (trigger_event : TriggerEvent) :
    FocusPlan × Option Adaptation :=
  let distraction_type := trigger_event.distraction_type
  let event_type := trigger_event.event_type
  let original_duration := current_plan.recommended_duration_minutes
  let tasks := current_plan.tasks
  if distraction_type = some "phone_use" then
    let new_duration := max 10 (original_duration - 5)
    let new_break_interval := min new_duration 15
    let adaptation : Adaptation :=
      { type := "reduce_focus_time"
        change := "Reduced focus time from " ++ toString original_duration ++
          "min to " ++ toString new_duration ++ "min due to phone use"
        new_duration := some new_duration
        new_break_interval := some new_break_interval
        timestamp := now }
    ({ current_plan with
        recommended_duration_minutes := new_duration
        break_interval_minutes := new_break_interval
        adaptations := current_plan.adaptations ++ [adaptation] },
      some adaptation)
  else if distraction_type = some "looking_away" ∧ model_distraction_count > 3 then
    let new_duration := max 15 (original_duration - 10)
    let new_break_interval := max 10 (Int.fdiv original_duration 2)
    let adaptation : Adaptation :=
      { type := "decompose_goal"
        change := "Breaking session into smaller chunks: " ++
          toString new_duration ++ "min blocks with " ++
          toString new_break_interval ++ "min breaks"
        new_duration := some new_duration
        new_break_interval := some new_break_interval
        timestamp := now }
    ({ current_plan with
        recommended_duration_minutes := new_duration
        break_interval_minutes := new_break_interval
        adaptations := current_plan.adaptations ++ [adaptation] },
      some adaptation)
  else if event_type = some LearningEventType.COGNITIVE_OVERLOAD then
    let adaptation : Adaptation :=
      { type := "simplify_tasks"
        change := "Breaking current goals into smaller, more manageable steps"
        new_duration := none
        new_break_interval := none
        timestamp := now }
    ({ current_plan with
        tasks := tasks.map (fun task =>
          if task.priority.getD 3 > 2 then
            { task with priority := some (task.priority.getD 3 - 1) }
          else task)
        adaptations := current_plan.adaptations ++ [adaptation] },
      some adaptation)
  else if event_type = some LearningEventType.SUSTAINED_FOCUS then
    let new_duration := min (original_duration + 5) 45
    let adaptation : Adaptation :=
      { type := "extend_block"
        change := "Focus going well - extending from " ++
          toString original_duration ++ "min to " ++
          toString new_duration ++ "min"
        new_duration := some new_duration
        new_break_interval := none
        timestamp := now }
    ({ current_plan with
        recommended_duration_minutes := new_duration
        adaptations := current_plan.adaptations ++ [adaptation] },
      some adaptation)
  else
    (current_plan, none)

/-- `AntiGravityOrchestrator.adapt_plan` (src/backend/main.py:4337-4428)
including the 120-second cooldown on the most recent entry of
`plan["adaptations"]` (main.py:4346-4351).  Second component: the applied
adaptation (`none` means untouched plan and no decision logged). -/
def adapt_plan_full (now : ℚ) (model_distraction_count : Nat)
    (current_plan : FocusPlan) (trigger_event : TriggerEvent) :
    FocusPlan × Option Adaptation :=
  match current_plan.adaptations.getLast? with
  | some last_adaptation =>
    if now - last_adaptation.timestamp < 120 then (current_plan, none)
    else adapt_plan_rules now model_distraction_count current_plan trigger_event
  | none => adapt_plan_rules now model_distraction_count current_plan trigger_event

/-- `adapt_plan` as the endpoint observes it: just the resulting plan. -/
def adapt_plan (now : ℚ) (model_distraction_count : Nat)
    (current_plan : FocusPlan) (trigger_event : TriggerEvent) : FocusPlan :=
  (adapt_plan_full now model_distraction_count current_plan trigger_event).1

/-- The frame state built for the current tick
(src/backend/main.py:4875-4879): `face` is `len(faces) > 0`. -/
def frameOf (face : Bool) : FrameState :=
  { is_distracted := !face
    type := if face then none else some "looking_away"
    face_present := face }

/-- Push into the bounded history: append, then `pop(0)` once the length
exceeds 10 (src/backend/main.py:4880-4884). -/
def pushFrame (history : List FrameState) (fs : FrameState) : List FrameState :=
  let h1 := history ++ [fs]
  if h1.length > 10 then h1.tail else h1

/-- `face_ratio = len(face_frames)/len(history) if history else 0.0`
(src/backend/main.py:4887-4891). -/
def face_ratio_of (history : List FrameState) : ℚ :=
  if history.isEmpty then 0.0
  else (history.countP (fun s => s.face_present) : ℚ) / (history.length : ℚ)

/-- The temporal smoother decision `final_distraction_status`
(src/backend/main.py:4894-4901): distracted unless `face_ratio >= 0.6`. -/
def stable_distracted (history : List FrameState) : Bool :=
  if face_ratio_of history ≥ 0.6 then false else true

/-- `final_distraction_type` (src/backend/main.py:4894-4902). -/
def stable_type (history : List FrameState) : Option String :=
  if face_ratio_of history ≥ 0.6 then none else some "looking_away"

/- Intervention message strings of src/backend/main.py
(lines 4903, 5013, 5017, 5019). -/

def refocusMessage : String :=
  "Hey! I noticed you might be looking away. Let\x27s refocus!"

def breakSuggestionMessage : String :=
  "You\x27ve been distracted a few times. Want to take a 5-minute break?"

def tiredMessage : String :=
  "I notice you might be getting tired. A short break could help you focus better."

def simplifyMessage : String :=
  "Let\x27s break this down into smaller pieces. What part would you like to focus on?"

/-- The relevant slice of the JSON payload returned by `analyze_focus`
(src/backend/main.py:5036-5050); image fields are out of scope. -/
structure FocusResponse where
  distraction_detected : Bool
  distraction_type : Option String
  distraction_level : ℚ
  intervention : Option String
  learning_event : LearningEvent
  should_intervene : Bool
  teaching_ready : Bool
  focus_plan : Option FocusPlan
  plan_adapted : Bool
deriving DecidableEq, Repr

/-- Result of one `analyze_focus` tick: updated student model, updated
per-user learning-event list, number of decisions appended to
`DECISION_LOGS[user_id]` during the tick, and the response payload. -/
structure TickResult where
  model : StudentModel
  events : List LearningEvent
  decisions : Nat
  resp : FocusResponse
deriving DecidableEq, Repr

/-- The raw per-tick intervention message chosen by the smoothing block
(src/backend/main.py:4894-4903): shown only in the distracted branch and only
once at least 3 recent frames are distracted. -/
def smoothed_intervention (history : List FrameState) : Option String :=
  if stable_distracted history then
    (if 3 ≤ history.countP (fun s => s.is_distracted) then some refocusMessage
     else none)
  else none

/-- The `behavioral_signals` dict built for logging
(src/backend/main.py:4910-4916); note that `eyes_open` is absent. -/
def signals_of (m : StudentModel) (history : List FrameState) (face : Bool) :
    BehavioralSignals :=
  { face_present := some face
    eyes_open := none
    gaze_stable := some (!stable_distracted history)
    distraction_level :=
      some (if history.isEmpty then 0.0 else 1.0 - face_ratio_of history)
    time_on_content := some m.current_content_time
    interaction_count := some m.interaction_count }

/-- The intervention-display gate (src/backend/main.py:4932-4947). -/
def should_show_intervention_of (history : List FrameState) (m : StudentModel)
    (now : ℚ) : Bool :=
  if stable_distracted history then
    decide (stable_distracted history ≠ m.last_distraction_status) ||
    decide (stable_type history ≠ m.last_intervention_type) ||
    decide (now - m.last_intervention_time > 8.0)
  else false

/-- The audit-logging gate (src/backend/main.py:4953-4960). -/
def should_log_of (history : List FrameState) (m : StudentModel)
    (now : ℚ) : Bool :=
  decide (stable_distracted history ≠ m.last_distraction_status) ||
  (stable_distracted history && decide (now - m.last_log_time > 20))

/-- The distracted-branch logging/adaptation block
(src/backend/main.py:4972-5008), applied to the model after the
`distraction_count` increment.  Returns the updated model and the number of
decisions logged. -/
def log_and_adapt (m3 : StudentModel) (learning_event : LearningEvent)
    (final_distraction_type : Option String) (signal_distraction_level : ℚ)
    (now : ℚ) (should_log : Bool) : StudentModel × Nat :=
  if should_log then
    let planAndDecisions : FocusPlan × Nat :=
      match m3.current_focus_plan with
      | some p => (p, 0)
      | none => (generate_focus_plan m3 25, 1)
    let trigger_event : TriggerEvent :=
      { event_type := learning_event.event_type
        distraction_type := final_distraction_type
        distraction_level := signal_distraction_level
        distraction_count := m3.distraction_count }
    let adapted := adapt_plan_full now m3.distraction_count planAndDecisions.1
      trigger_event
    ({ m3 with
        last_log_time := now
        current_focus_plan := some adapted.1 },
      1 + planAndDecisions.2 + (if adapted.2.isSome then 1 else 0))
  else (m3, 0)

/-- The distracted-branch intervention post-processing
(src/backend/main.py:5010-5019): the `distraction_count > 5` break
suggestion, then the learning-event overrides. -/
def escalate_intervention (count : Nat) (learning_event : LearningEvent)
    (intervention1 : Option String) : Option String :=
  let intervention2 :=
    if count > 5 ∧ intervention1 = none then some breakSuggestionMessage
    else intervention1
  if learning_event.intervention_type = some "suggest_break" then
    some tiredMessage
  else if learning_event.intervention_type = some "simplify_content" then
    some simplifyMessage
  else intervention2

/-- The relevant response payload for a tick
(src/backend/main.py:5036-5050). -/
def response_of (final_status : Bool) (final_type : Option String)
    (raw_level : ℚ) (intervention : Option String)
    (learning_event : LearningEvent) (events1 : List LearningEvent)
    (mFinal : StudentModel) : FocusResponse :=
  { distraction_detected := final_status
    distraction_type := final_type
    distraction_level := raw_level
    intervention := intervention
    learning_event := learning_event
    should_intervene := learning_event.should_intervene
    teaching_ready := (should_teach events1).1
    focus_plan := mFinal.current_focus_plan
    plan_adapted :=
      match mFinal.current_focus_plan with
      | some p => decide (p.adaptations.length > 0)
      | none => false }

/-- One tick of the `/api/focus/analyze` handler `analyze_focus` from the
point where the signal extractor has produced `faces`
(src/backend/main.py:4819-5050).  `face` is `len(faces) > 0`; `now` is the
tick's `datetime.now()`.  Image decoding, drawing and the raw
frame-classification values that the smoothing block overwrites are outside
the model; `distraction_level` is NOT overwritten by the smoother and stays
at its raw per-frame value (0.8 for a no-face frame, 0.0 otherwise,
main.py:4821, 4833, 4841). -/
def analyze_focus (m : StudentModel) (events : List LearningEvent)
    (face : Bool) (now : ℚ) : TickResult :=
  -- raw per-frame distraction level (main.py:4829-4841)
  let distraction_level : ℚ := if face then 0.0 else 0.8
  -- push to the bounded history (main.py:4872-4884)
  let history := pushFrame m.status_history (frameOf face)
  -- majority voting (main.py:4887-4903)
  let final_distraction_status := stable_distracted history
  let final_distraction_type := stable_type history
  let intervention0 := smoothed_intervention history
  let behavioral_signals := signals_of m history face
  -- infer learning event (main.py:4918-4923)
  let inferred := infer_learning_event events behavioral_signals now
  let learning_event := inferred.1
  let events1 := inferred.2
  -- intervention cooldown (main.py:4925-4951)
  let should_show := should_show_intervention_of history m now
  let intervention1 :=
    if final_distraction_status ∧ should_show = false then none
    else intervention0
  let should_log := should_log_of history m now
  -- state updates (main.py:4962-4967)
  let m1 := { m with
    status_history := history
    last_distraction_status := final_distraction_status }
  let m2 :=
    if final_distraction_status ∧ should_show then
      { m1 with
          last_intervention_time := now
          last_intervention_type := final_distraction_type }
    else m1
  if final_distraction_status then
    -- distracted branch (main.py:4969-5019)
    let m3 := { m2 with distraction_count := m2.distraction_count + 1 }
    let logged := log_and_adapt m3 learning_event final_distraction_type
      (behavioral_signals.distraction_level.getD 0.0) now should_log
    let intervention3 := escalate_intervention logged.1.distraction_count
      learning_event intervention1
    { model := logged.1
      events := events1
      decisions := logged.2
      resp := response_of final_distraction_status final_distraction_type
        distraction_level intervention3 learning_event events1 logged.1 }
  else
    -- focused branch (main.py:5020-5022)
    let m3 := { m2 with total_focus_time := m2.total_focus_time + 3 }
    { model := m3
      events := events1
      decisions := 0
      resp := response_of final_distraction_status final_distraction_type
        distraction_level intervention1 learning_event events1 m3 }

/-- Model and event list after running `analyze_focus` on a sequence of
(face-present, time) observations. -/
def state_after (m : StudentModel) (events : List LearningEvent) :
    List (Bool × ℚ) → StudentModel × List LearningEvent
  | [] => (m, events)
  | (face, now) :: rest =>
    let r := analyze_focus m events face now
    state_after r.model r.events rest

/-- The list of tick results along a run of `analyze_focus`. -/
def run_ticks (m : StudentModel) (events : List LearningEvent) :
    List (Bool × ℚ) → List TickResult
  | [] => []
  | (face, now) :: rest =>
    let r := analyze_focus m events face now
    r :: run_ticks r.model r.events rest

/- ──────────────────────────────────────────────────────────────────────────
Specification-side definitions (written from the claims, to be compared with
the source embedding above) and concrete example values.
────────────────────────────────────────────────────────────────────────── -/

/-- The event types of `class LearningEventType`, plus `none` for "unset". -/
def validEventType (t : Option String) : Prop :=
  t = none ∨
  t = some LearningEventType.SUSTAINED_FOCUS ∨
  t = some LearningEventType.SHALLOW_ENGAGEMENT ∨
  t = some LearningEventType.CONFUSION_SILENT ∨
  t = some LearningEventType.COGNITIVE_OVERLOAD ∨
  t = some LearningEventType.DISTRACTION_PHONE ∨
  t = some LearningEventType.DISTRACTION_ENVIRONMENT ∨
  t = some LearningEventType.FATIGUE ∨
  t = some LearningEventType.SUCCESSFUL_APPLICATION ∨
  t = some LearningEventType.DISENGAGEMENT_POST_EXPLANATION ∨
  t = some LearningEventType.RECOVERY ∨
  t = some LearningEventType.ATTENTION_DROP

instance (t : Option String) : Decidable (validEventType t) := by
  unfold validEventType; infer_instance

/-- Spec-side classifier, written from the words of claim C3: the fixed
priority order with first match winning, followed by the RECOVERY override
when any of the preceding 10 events is a distraction-type event
(DISTRACTION_PHONE or DISTRACTION_ENVIRONMENT).  Returns
(event_type, confidence, should_intervene). -/
def classifier_spec (events : List LearningEvent) (s : BehavioralSignals) :
    Option String × ℚ × Bool :=
  let face_present := s.face_present.getD true
  let eyes_open := s.eyes_open.getD true
  let gaze_stable := s.gaze_stable.getD true
  let distraction_level := s.distraction_level.getD 0.0
  let time_on_content := s.time_on_content.getD 0
  let interaction_count := s.interaction_count.getD 0
  let computed : Option String × ℚ × Bool :=
    if face_present = false then
      (some LearningEventType.DISTRACTION_ENVIRONMENT, 0.9,
        decide (distraction_level > 0.5))
    else if time_on_content > 120 ∧ interaction_count = 0 then
      (some LearningEventType.COGNITIVE_OVERLOAD, 0.7, true)
    else if time_on_content < 10 ∧ gaze_stable = true then
      (some LearningEventType.SHALLOW_ENGAGEMENT, 0.6, false)
    else if gaze_stable = true ∧ eyes_open = true ∧ time_on_content > 30 then
      (some LearningEventType.SUSTAINED_FOCUS, 0.85, false)
    else (none, 0, false)
  let preceding := events.drop (events.length - 10)
  if (preceding.any (fun e =>
        e.event_type = some LearningEventType.DISTRACTION_PHONE ||
        e.event_type = some LearningEventType.DISTRACTION_ENVIRONMENT)) = true ∧
      computed.1 = some LearningEventType.SUSTAINED_FOCUS then
    (some LearningEventType.RECOVERY, 0.75, computed.2.2)
  else computed

/-- Signals with every missing field replaced by the default the classifier
uses (claim C9): face_present/eyes_open/gaze_stable true,
distraction_level 0.0, time_on_content 0, interaction_count 0. -/
def resolved_signals (s : BehavioralSignals) : BehavioralSignals :=
  { face_present := some (s.face_present.getD true)
    eyes_open := some (s.eyes_open.getD true)
    gaze_stable := some (s.gaze_stable.getD true)
    distraction_level := some (s.distraction_level.getD 0.0)
    time_on_content := some (s.time_on_content.getD 0)
    interaction_count := some (s.interaction_count.getD 0) }

/-- A signals dict with every key missing. -/
def emptySignals : BehavioralSignals :=
  { face_present := none
    eyes_open := none
    gaze_stable := none
    distraction_level := none
    time_on_content := none
    interaction_count := none }

/- Concrete example values used by witnesses and counterexamples. -/

def c1Hist : List FrameState :=
  List.replicate 6 (frameOf true) ++ List.replicate 4 (frameOf false)

def c2Hist : List FrameState := List.replicate 10 (frameOf false)

def c3Events : List LearningEvent :=
  [{ timestamp := 0
     event_type := some LearningEventType.DISTRACTION_ENVIRONMENT
     evidence := emptySignals
     confidence := 0.9
     should_intervene := false
     intervention_type := some "gentle_refocus" }]

def c3Signals : BehavioralSignals :=
  { face_present := some true
    eyes_open := none
    gaze_stable := some true
    distraction_level := some 0.2
    time_on_content := some 40
    interaction_count := some 1 }

def c4LastAdaptation : Adaptation :=
  { type := "reduce_focus_time"
    change := "earlier adaptation"
    new_duration := some 25
    new_break_interval := some 15
    timestamp := 0 }

def c4Plan : FocusPlan :=
  { recommended_duration_minutes := 25
    break_interval_minutes := 25
    break_duration_minutes := 5
    tasks := []
    adaptations := [c4LastAdaptation]
    confidence := 0.5
    rationale := "initial plan" }

def c4Trigger : TriggerEvent :=
  { event_type := none
    distraction_type := some "phone_use"
    distraction_level := 0.8
    distraction_count := 0 }

def c5Plan : FocusPlan :=
  { recommended_duration_minutes := 25
    break_interval_minutes := 25
    break_duration_minutes := 5
    tasks := []
    adaptations := []
    confidence := 0.5
    rationale := "initial plan" }

def c5PhoneTrig : TriggerEvent :=
  { event_type := none
    distraction_type := some "phone_use"
    distraction_level := 0.8
    distraction_count := 0 }

def c6Model : StudentModel :=
  { initStudentModel with status_history := [frameOf false, frameOf false] }

def c7Model : StudentModel :=
  { initStudentModel with
      distraction_count := 6
      status_history := [frameOf false, frameOf false, frameOf false,
        frameOf false, frameOf false, frameOf false, frameOf false,
        frameOf false, frameOf false, frameOf false]
      last_distraction_status := true
      last_intervention_type := some "looking_away"
      last_intervention_time := 100
      last_log_time := 100 }

def c7R1 : TickResult := analyze_focus c7Model [] false 101

def c7R2 : TickResult := analyze_focus c7R1.model c7R1.events false 102

def c7WitnessModel : StudentModel :=
  { c7Model with distraction_count := 2 }

def c8Inputs : List (Bool × ℚ) :=
  [(false, 0), (false, 10), (false, 20), (false, 30), (false, 40),
   (false, 50), (false, 60), (false, 70), (false, 80), (false, 90)]

def c8Results : List TickResult := run_ticks initStudentModel [] c8Inputs

/- ──────────────────────────────────────────────────────────────────────────
Helper lemmas (shared between claims).
────────────────────────────────────────────────────────────────────────── -/

lemma isEmpty_eq_false_of_ne_nil {α : Type _} {l : List α} (h : l ≠ []) :
    l.isEmpty = false := by
  cases l with
  | nil => exact absurd rfl h
  | cons a t => rfl

lemma face_ratio_of_ne_nil {history : List FrameState} (h : history ≠ []) :
    face_ratio_of history =
      (history.countP (fun s => s.face_present) : ℚ) / (history.length : ℚ) := by
  simp [face_ratio_of, isEmpty_eq_false_of_ne_nil h]

lemma stable_distracted_eq_false_iff {history : List FrameState}
    (h : history ≠ []) :
    stable_distracted history = false ↔
      (0.6 : ℚ) ≤
        (history.countP (fun s => s.face_present) : ℚ) / (history.length : ℚ) := by
  unfold stable_distracted
  rw [face_ratio_of_ne_nil h]
  split_ifs with hc
  · simpa [ge_iff_le] using hc
  · simpa [ge_iff_le] using hc

lemma pushFrame_length_le {history : List FrameState} {fs : FrameState}
    (h : history.length ≤ 10) : (pushFrame history fs).length ≤ 10 := by
  simp only [pushFrame]
  split_ifs with hc <;>
    simp_all [List.length_tail, List.length_append]

lemma foldl_pushFrame_length_le (frames : List FrameState) :
    ∀ acc : List FrameState, acc.length ≤ 10 →
      (frames.foldl pushFrame acc).length ≤ 10 := by
  induction frames with
  | nil => intro acc h; simpa using h
  | cons f rest ih =>
    intro acc h
    rw [List.foldl_cons]
    exact ih _ (pushFrame_length_le h)

lemma log_and_adapt_status_history (m3 : StudentModel)
    (learning_event : LearningEvent) (t : Option String) (dl now : ℚ)
    (b : Bool) :
    (log_and_adapt m3 learning_event t dl now b).1.status_history =
      m3.status_history := by
  unfold log_and_adapt
  split_ifs <;> rfl

lemma log_and_adapt_count (m3 : StudentModel)
    (learning_event : LearningEvent) (t : Option String) (dl now : ℚ)
    (b : Bool) :
    (log_and_adapt m3 learning_event t dl now b).1.distraction_count =
      m3.distraction_count := by
  unfold log_and_adapt
  split_ifs <;> rfl

lemma log_and_adapt_false (m3 : StudentModel) (le : LearningEvent)
    (t : Option String) (dl now : ℚ) :
    log_and_adapt m3 le t dl now false = (m3, 0) := by
  unfold log_and_adapt
  simp

lemma log_and_adapt_last_distraction_status (m3 : StudentModel)
    (le : LearningEvent) (t : Option String) (dl now : ℚ) (b : Bool) :
    (log_and_adapt m3 le t dl now b).1.last_distraction_status =
      m3.last_distraction_status := by
  unfold log_and_adapt
  split_ifs <;> rfl

lemma log_and_adapt_last_intervention_time (m3 : StudentModel)
    (le : LearningEvent) (t : Option String) (dl now : ℚ) (b : Bool) :
    (log_and_adapt m3 le t dl now b).1.last_intervention_time =
      m3.last_intervention_time := by
  unfold log_and_adapt
  split_ifs <;> rfl

lemma log_and_adapt_last_intervention_type (m3 : StudentModel)
    (le : LearningEvent) (t : Option String) (dl now : ℚ) (b : Bool) :
    (log_and_adapt m3 le t dl now b).1.last_intervention_type =
      m3.last_intervention_type := by
  unfold log_and_adapt
  split_ifs <;> rfl

lemma log_and_adapt_current_content_time (m3 : StudentModel)
    (le : LearningEvent) (t : Option String) (dl now : ℚ) (b : Bool) :
    (log_and_adapt m3 le t dl now b).1.current_content_time =
      m3.current_content_time := by
  unfold log_and_adapt
  split_ifs <;> rfl

lemma log_and_adapt_interaction_count (m3 : StudentModel)
    (le : LearningEvent) (t : Option String) (dl now : ℚ) (b : Bool) :
    (log_and_adapt m3 le t dl now b).1.interaction_count =
      m3.interaction_count := by
  unfold log_and_adapt
  split_ifs <;> rfl

lemma log_and_adapt_last_log_time (m3 : StudentModel)
    (le : LearningEvent) (t : Option String) (dl now : ℚ) :
    (log_and_adapt m3 le t dl now true).1.last_log_time = now := by
  unfold log_and_adapt
  rfl

lemma analyze_focus_status_history (m : StudentModel)
    (events : List LearningEvent) (face : Bool) (now : ℚ) :
    (analyze_focus m events face now).model.status_history =
      pushFrame m.status_history (frameOf face) := by
  unfold analyze_focus
  dsimp only
  split_ifs <;> simp [log_and_adapt_status_history]

/- ──────────────────────────────────────────────────────────────────────────
Claims.
────────────────────────────────────────────────────────────────────────── -/

/-- Claim C1: for any non-empty status history, the temporal smoother
classifies the stable state as focused exactly when the fraction of
face-present frames is at least 0.6, and as distracted with type
"looking_away" otherwise; in particular a full 10-frame history with exactly
6 face-present frames resolves to focused. -/
theorem smoother_majority_vote (history : List FrameState) (h : history ≠ []) :
    (stable_distracted history = false ↔
      (0.6 : ℚ) ≤
        (history.countP (fun s => s.face_present) : ℚ) / (history.length : ℚ))
    ∧ (stable_distracted history = true →
        stable_type history = some "looking_away")
    ∧ (stable_distracted history = false → stable_type history = none)
    ∧ (history.length = 10 → history.countP (fun s => s.face_present) = 6 →
        stable_distracted history = false) := by
  refine ⟨stable_distracted_eq_false_iff h, ?_, ?_, ?_⟩
  · unfold stable_distracted stable_type
    split_ifs <;> simp
  · unfold stable_distracted stable_type
    split_ifs <;> simp
  · intro hlen hcount
    rw [stable_distracted_eq_false_iff h, hcount, hlen]
    norm_num

/-- Witness for C1: a concrete full 10-frame history with exactly 6
face-present frames is classified focused. -/
theorem smoother_majority_vote_witness : stable_distracted c1Hist = false :=
  (smoother_majority_vote c1Hist (by decide)).2.2.2 (by decide) (by decide)

/-- Claim C2: the status history never exceeds 10 entries (both for one push
from a bounded history and along any run from the empty history); when a
frame is pushed onto a full 10-entry history, the oldest entry is evicted
first (FIFO); and `analyze_focus` updates the stored history by exactly this
push operation. -/
theorem status_history_bounded_fifo :
    (∀ (history : List FrameState) (fs : FrameState), history.length ≤ 10 →
      (pushFrame history fs).length ≤ 10)
    ∧ (∀ frames : List FrameState,
        (frames.foldl pushFrame []).length ≤ 10)
    ∧ (∀ (history : List FrameState) (fs : FrameState), history.length = 10 →
        pushFrame history fs = history.tail ++ [fs])
    ∧ (∀ (m : StudentModel) (events : List LearningEvent) (face : Bool)
        (now : ℚ),
        (analyze_focus m events face now).model.status_history =
          pushFrame m.status_history (frameOf face)) := by
  refine ⟨fun _ _ h => pushFrame_length_le h,
    fun frames => foldl_pushFrame_length_le frames [] (by simp),
    ?_, analyze_focus_status_history⟩
  intro history fs hl
  cases history with
  | nil => simp at hl
  | cons a t =>
    have ht : t.length = 9 := by simpa using hl
    simp [pushFrame, ht]

/-- Witness for C2 at a concrete full history. -/
theorem status_history_bounded_fifo_witness :
    (pushFrame c2Hist (frameOf true)).length ≤ 10 ∧
    pushFrame c2Hist (frameOf true) = c2Hist.tail ++ [frameOf true] :=
  ⟨status_history_bounded_fifo.1 c2Hist (frameOf true) (by decide),
   status_history_bounded_fifo.2.2.1 c2Hist (frameOf true) (by decide)⟩

/-- Claim C9: the classifier is total on partial input (it is a total
function of its `BehavioralSignals` argument by construction) and behaves on
any partial signals exactly as on the fully-defaulted signals, where the
defaults are face_present=true, eyes_open=true, gaze_stable=true,
distraction_level=0.0, time_on_content=0, interaction_count=0. -/
theorem classifier_total_with_defaults (events : List LearningEvent)
    (s : BehavioralSignals) (ts : ℚ) :
    (infer_learning_event events (resolved_signals s) ts).1 =
      { (infer_learning_event events s ts).1 with
          evidence := resolved_signals s }
    ∧ resolved_signals emptySignals =
      { face_present := some true
        eyes_open := some true
        gaze_stable := some true
        distraction_level := some 0.0
        time_on_content := some 0
        interaction_count := some 0 } := by
  constructor
  · unfold infer_learning_event resolved_signals
    dsimp only [Option.getD_some]
    split_ifs <;> rfl
  · rfl

/-- Per-tick bookkeeping of the lifetime distraction counter: the new count
is the old count plus one exactly when the tick's stable status is
distracted. -/
lemma analyze_focus_count (m : StudentModel) (events : List LearningEvent)
    (face : Bool) (now : ℚ) :
    (analyze_focus m events face now).model.distraction_count =
      m.distraction_count +
        (if (analyze_focus m events face now).resp.distraction_detected
         then 1 else 0) := by
  unfold analyze_focus
  dsimp only
  split_ifs <;> simp_all [log_and_adapt_count, response_of]

/-- Claim C10: `distraction_count` is incremented by exactly 1 on every tick
whose stable status is distracted, never incremented on a focused tick, and
never decremented or reset for an existing user: it is monotonically
non-decreasing along every run of analysis ticks. -/
theorem distraction_count_monotone :
    (∀ (m : StudentModel) (events : List LearningEvent) (face : Bool)
      (now : ℚ),
      (analyze_focus m events face now).model.distraction_count =
        m.distraction_count +
          (if (analyze_focus m events face now).resp.distraction_detected
           then 1 else 0))
    ∧ (∀ (m : StudentModel) (events : List LearningEvent)
        (inputs : List (Bool × ℚ)),
        m.distraction_count ≤ (state_after m events inputs).1.distraction_count) := by
  refine ⟨analyze_focus_count, ?_⟩
  intro m events inputs
  induction inputs generalizing m events with
  | nil => exact le_refl _
  | cons i rest ih =>
    obtain ⟨face, now⟩ := i
    have hstep : m.distraction_count ≤
        (analyze_focus m events face now).model.distraction_count := by
      rw [analyze_focus_count]
      exact Nat.le_add_right _ _
    calc m.distraction_count
        ≤ (analyze_focus m events face now).model.distraction_count := hstep
      _ ≤ _ := by
          rw [state_after]
          exact ih _ _

/-- On the named event types the source's substring test
`"distraction" in event_type` holds exactly for the two distraction types. -/
lemma containsSub_distraction_eq {t : Option String} (h : validEventType t) :
    containsSub "distraction" (t.getD "") =
      (t = some LearningEventType.DISTRACTION_PHONE ||
       t = some LearningEventType.DISTRACTION_ENVIRONMENT) := by
  rcases h with h | h | h | h | h | h | h | h | h | h | h | h <;>
    subst h <;> decide

/-- The source's `len(recent_distractions) > 0` test agrees with the spec's
"any of the preceding events is a distraction-type event" when all event
types are from the `LearningEventType` enumeration (or unset). -/
lemma recent_distractions_pos_iff {history : List LearningEvent}
    (h : ∀ e ∈ history, validEventType e.event_type) :
    (history.filter
        (fun e => containsSub "distraction" (e.event_type.getD ""))).length > 0 ↔
      (history.any (fun e =>
        e.event_type = some LearningEventType.DISTRACTION_PHONE ||
        e.event_type = some LearningEventType.DISTRACTION_ENVIRONMENT)) = true := by
  rw [gt_iff_lt, List.length_pos, Ne, List.filter_eq_nil_iff, List.any_eq_true]
  constructor
  · intro hne
    push_neg at hne
    obtain ⟨e, he, hp⟩ := hne
    refine ⟨e, he, ?_⟩
    rw [← containsSub_distraction_eq (h e he)]
    simpa using hp
  · rintro ⟨e, he, hp⟩ hall
    exact hall e he (by rw [containsSub_distraction_eq (h e he)]; simpa using hp)

/-- Claim C3: the event classifier applies its rules in fixed priority order
with first match winning, then relabels SUSTAINED_FOCUS as RECOVERY
(confidence 0.75) when any of the preceding 10 events is a distraction-type
event — that is, `infer_learning_event` refines `classifier_spec`, the
classifier written from the claim text, in event_type, confidence and
should_intervene, whenever the stored events carry valid event types. -/
theorem classifier_priority_refines_spec (events : List LearningEvent)
    (s : BehavioralSignals) (ts : ℚ)
    (h : ∀ e ∈ events, validEventType e.event_type) :
    ((infer_learning_event events s ts).1.event_type,
      (infer_learning_event events s ts).1.confidence,
      (infer_learning_event events s ts).1.should_intervene) =
      classifier_spec events s := by
  have hdrop : ∀ e ∈ events.drop (events.length - 10), validEventType e.event_type :=
    fun e he => h e (List.mem_of_mem_drop he)
  have hiff := recent_distractions_pos_iff hdrop
  unfold infer_learning_event classifier_spec
  dsimp only
  simp only [hiff]
  split_ifs <;> rfl

/-- Witness for C3: one prior distraction event plus sustained-focus signals
produce the RECOVERY relabelling through both the source classifier and the
spec classifier. -/
theorem classifier_priority_refines_spec_witness :
    ((infer_learning_event c3Events c3Signals 0).1.event_type,
      (infer_learning_event c3Events c3Signals 0).1.confidence,
      (infer_learning_event c3Events c3Signals 0).1.should_intervene) =
      classifier_spec c3Events c3Signals :=
  classifier_priority_refines_spec c3Events c3Signals 0 (by decide)

/-- When a rule body of the plan adapter applies, the appended adaptation is
the last entry and carries the call's timestamp. -/
lemma adapt_plan_rules_applied {now : ℚ} {c : Nat} {p : FocusPlan}
    {trig : TriggerEvent} {q : FocusPlan} {a : Adaptation}
    (h : adapt_plan_rules now c p trig = (q, some a)) :
    q.adaptations.getLast? = some a ∧ a.timestamp = now := by
  unfold adapt_plan_rules at h
  dsimp only at h
  split_ifs at h <;> injection h with h1 h2 <;>
    first
      | exact Option.noConfusion h2
      | (injection h2 with h3
         subst h3
         subst h1
         exact ⟨by simp [List.getLast?_concat], rfl⟩)

/-- Same fact through the cooldown wrapper. -/
lemma adapt_plan_full_applied {now : ℚ} {c : Nat} {p : FocusPlan}
    {trig : TriggerEvent} {q : FocusPlan} {a : Adaptation}
    (h : adapt_plan_full now c p trig = (q, some a)) :
    q.adaptations.getLast? = some a ∧ a.timestamp = now := by
  unfold adapt_plan_full at h
  cases hl : p.adaptations.getLast? with
  | none =>
    rw [hl] at h
    exact adapt_plan_rules_applied h
  | some la =>
    rw [hl] at h
    dsimp only at h
    split_ifs at h
    · injection h with h1 h2
      exact Option.noConfusion h2
    · exact adapt_plan_rules_applied h

/-- Counterexample to claim C4 as stated: two `adapt_plan` calls 30 seconds
apart (well within 120 seconds of each other) on a plan whose only prior
adaptation is 100 seconds old at the first call.  The first call is
throttled and returns the plan unchanged — so it writes no new cooldown
timestamp — and the second call, now more than 120 seconds after the prior
adaptation, mutates the plan (duration 25 → 20). -/
theorem adapt_plan_cooldown_counterexample :
    (130 : ℚ) - 100 < 120 ∧
    adapt_plan 100 0 c4Plan c4Trigger = c4Plan ∧
    (adapt_plan 130 0 (adapt_plan 100 0 c4Plan c4Trigger)
        c4Trigger).recommended_duration_minutes = 20 ∧
    c4Plan.recommended_duration_minutes = 25 := by
  have h1 : adapt_plan 100 0 c4Plan c4Trigger = c4Plan := by
    unfold adapt_plan adapt_plan_full
    norm_num [c4Plan, c4LastAdaptation]
  refine ⟨by norm_num, h1, ?_, rfl⟩
  rw [h1]
  unfold adapt_plan adapt_plan_full adapt_plan_rules
  norm_num [c4Plan, c4LastAdaptation, c4Trigger]

/-- Claim C4 (amended): if the most recent entry of `plan.adaptations` is
less than 120 seconds old, `adapt_plan` is a no-op — the plan is returned
unchanged, nothing is appended and no decision is logged (second component
`none`); hence when the first of two calls within 120 seconds of each other
actually applies an adaptation, the second call returns the plan unchanged.
(As stated the claim fails when the first call applies nothing: see the
counterexample.) -/
theorem adapt_plan_cooldown_noop :
    (∀ (now : ℚ) (c : Nat) (plan : FocusPlan) (trig : TriggerEvent)
      (la : Adaptation),
      plan.adaptations.getLast? = some la → now - la.timestamp < 120 →
      adapt_plan_full now c plan trig = (plan, none))
    ∧ (∀ (t₁ t₂ : ℚ) (c₁ c₂ : Nat) (p p₁ : FocusPlan)
        (trig₁ trig₂ : TriggerEvent) (a : Adaptation),
        adapt_plan_full t₁ c₁ p trig₁ = (p₁, some a) → t₂ - t₁ < 120 →
        adapt_plan_full t₂ c₂ p₁ trig₂ = (p₁, none)) := by
  have noop : ∀ (now : ℚ) (c : Nat) (plan : FocusPlan) (trig : TriggerEvent)
      (la : Adaptation),
      plan.adaptations.getLast? = some la → now - la.timestamp < 120 →
      adapt_plan_full now c plan trig = (plan, none) := by
    intro now c plan trig la hl ht
    unfold adapt_plan_full
    rw [hl]
    dsimp only
    rw [if_pos ht]
  refine ⟨noop, ?_⟩
  intro t₁ t₂ c₁ c₂ p p₁ trig₁ trig₂ a heq ht
  obtain ⟨hlast, hts⟩ := adapt_plan_full_applied heq
  exact noop _ _ _ _ _ hlast (by rw [hts]; exact ht)

/-- Witness for C4 (amended): the concrete plan with a 100-second-old
adaptation is returned untouched, with no decision logged. -/
theorem adapt_plan_cooldown_noop_witness :
    adapt_plan_full 100 0 c4Plan c4Trigger = (c4Plan, none) :=
  adapt_plan_cooldown_noop.1 100 0 c4Plan c4Trigger c4LastAdaptation
    (by rfl) (by norm_num [c4LastAdaptation])

/-- Claim C5: a phone_use adaptation never drives the recommended duration
below 10; a looking_away adaptation (type `decompose_goal`) never drives it
below 15; a sustained-focus extension (type `extend_block`) never drives it
above 45. -/
theorem adapt_plan_duration_bounds (now : ℚ) (c : Nat) (plan : FocusPlan)
    (trig : TriggerEvent) :
    ((adapt_plan_full now c plan trig).2.map Adaptation.type =
        some "reduce_focus_time" →
      10 ≤ (adapt_plan_full now c plan trig).1.recommended_duration_minutes)
    ∧ ((adapt_plan_full now c plan trig).2.map Adaptation.type =
        some "decompose_goal" →
      15 ≤ (adapt_plan_full now c plan trig).1.recommended_duration_minutes)
    ∧ ((adapt_plan_full now c plan trig).2.map Adaptation.type =
        some "extend_block" →
      (adapt_plan_full now c plan trig).1.recommended_duration_minutes ≤ 45) := by
  unfold adapt_plan_full adapt_plan_rules
  cases hl : plan.adaptations.getLast? with
  | none =>
    dsimp only
    split_ifs <;> refine ⟨fun hh => ?_, fun hh => ?_, fun hh => ?_⟩ <;>
      simp_all
  | some la =>
    dsimp only
    split_ifs <;> refine ⟨fun hh => ?_, fun hh => ?_, fun hh => ?_⟩ <;>
      simp_all

/-- Witness for C5: the phone_use rule applied to a 25-minute plan respects
the floor of 10. -/
theorem adapt_plan_duration_bounds_witness :
    10 ≤ (adapt_plan_full 0 0 c5Plan c5PhoneTrig).1.recommended_duration_minutes :=
  (adapt_plan_duration_bounds 0 0 c5Plan c5PhoneTrig).1 (by rfl)

/-- When the stable state is distracted and it differs from the previous
tick's stable state, the display gate always fires. -/
lemma should_show_on_transition {history : List FrameState}
    {m : StudentModel} (now : ℚ) (h1 : m.last_distraction_status = false)
    (h2 : stable_distracted history = true) :
    should_show_intervention_of history m now = true := by
  unfold should_show_intervention_of
  rw [h2]
  simp [h1]

/-- With a distracted stable state and at least 3 distracted frames in the
history, the smoothing block picks the refocus message. -/
lemma smoothed_intervention_eq_some {history : List FrameState}
    (h2 : stable_distracted history = true)
    (h3 : 3 ≤ history.countP (fun s => s.is_distracted)) :
    smoothed_intervention history = some refocusMessage := by
  unfold smoothed_intervention
  rw [h2]
  simp [h3]

/-- The post-processing of the distracted branch never discards an already
chosen message. -/
lemma escalate_intervention_ne_none {count : Nat} {le : LearningEvent}
    {msg : String} :
    escalate_intervention count le (some msg) ≠ none := by
  unfold escalate_intervention
  split_ifs <;> simp_all

/-- Counterexample to claim C6 as stated: a fresh user's very first frame
with no face is a transition from not-distracted to distracted, yet the
returned intervention is null, because the message is additionally gated on
at least 3 distracted frames in the (here 1-element) history
(src/backend/main.py:4903). -/
theorem intervention_rearm_counterexample :
    initStudentModel.last_distraction_status = false ∧
    (analyze_focus initStudentModel [] false 0).resp.distraction_detected = true ∧
    (analyze_focus initStudentModel [] false 0).resp.intervention = none := by
  refine ⟨rfl, ?_, ?_⟩ <;>
    · norm_num [analyze_focus, initStudentModel, pushFrame, frameOf,
        stable_distracted, stable_type, face_ratio_of, smoothed_intervention,
        signals_of, infer_learning_event, should_show_intervention_of,
        should_log_of, log_and_adapt, escalate_intervention, response_of,
        LearningEventType.DISTRACTION_ENVIRONMENT]
      try decide

/-- Claim C6 (amended): on a tick whose stable status transitions from
not-distracted to distracted, the returned intervention is non-null
regardless of the cooldown timers and of the last shown intervention type,
PROVIDED at least 3 frames of the updated status history are distracted;
with fewer than 3 distracted frames the message is suppressed (see the
counterexample). -/
theorem intervention_rearm_on_transition (m : StudentModel)
    (events : List LearningEvent) (face : Bool) (now : ℚ)
    (h1 : m.last_distraction_status = false)
    (h2 : stable_distracted (pushFrame m.status_history (frameOf face)) = true)
    (h3 : 3 ≤ (pushFrame m.status_history (frameOf face)).countP
        (fun s => s.is_distracted)) :
    (analyze_focus m events face now).resp.intervention ≠ none := by
  unfold analyze_focus
  dsimp only
  simp only [h2, smoothed_intervention_eq_some h2 h3,
    should_show_on_transition now h1, response_of]
  simp [escalate_intervention_ne_none]

/-- Witness for C6 (amended): a model with two distracted frames of history
that was not previously in the distracted stable state transitions on a
third no-face frame and gets a message. -/
theorem intervention_rearm_on_transition_witness :
    (analyze_focus c6Model [] false 0).resp.intervention ≠ none :=
  intervention_rearm_on_transition c6Model [] false 0 rfl
    (by norm_num [stable_distracted, face_ratio_of, pushFrame, frameOf,
      c6Model, initStudentModel])
    (by decide)


/-- Evaluation fact for the substring test on the environment-distraction
event type. -/
@[simp] lemma containsSub_distraction_environment :
    containsSub "distraction" "distraction_environment" = true := by decide

/-- When the stable state repeats the previous distracted state with the
same type and the 8-second window has not elapsed, the display gate
suppresses. -/
lemma should_show_repeat_false {history : List FrameState}
    {m : StudentModel} {now : ℚ} (h1 : m.last_distraction_status = true)
    (h2 : stable_distracted history = true)
    (h3 : stable_type history = m.last_intervention_type)
    (h4 : now - m.last_intervention_time ≤ 8.0) :
    should_show_intervention_of history m now = false := by
  unfold should_show_intervention_of
  rw [h2, h3]
  have hlt : ¬ (now - m.last_intervention_time > 8.0) := not_lt.mpr h4
  simp [h1, hlt]

/-- The distracted-branch post-processing keeps a suppressed message
suppressed when the lifetime counter is at most 5 and the learning event
carries no overriding intervention type. -/
lemma escalate_intervention_none {count : Nat} {le : LearningEvent}
    (hc : ¬ count > 5)
    (h6 : le.intervention_type ≠ some "suggest_break")
    (h7 : le.intervention_type ≠ some "simplify_content") :
    escalate_intervention count le none = none := by
  unfold escalate_intervention
  simp [hc, h6, h7]

/-- Counterexample to claim C7 as stated: a user whose lifetime
distraction_count already exceeds 5.  Both ticks have the same stable
distracted status and type, the second tick is 2 seconds after the last
shown intervention of that type, yet the returned intervention is non-null:
the `distraction_count > 5` break-suggestion fallback
(src/backend/main.py:5012-5013) fires precisely because the cooldown
suppressed the refocus message. -/
theorem cooldown_suppression_counterexample :
    c7Model.last_intervention_type = some "looking_away" ∧
    c7Model.last_intervention_time = 100 ∧
    c7R1.resp.distraction_detected = true ∧
    c7R1.resp.distraction_type = some "looking_away" ∧
    c7R2.resp.distraction_detected = true ∧
    c7R2.resp.distraction_type = some "looking_away" ∧
    c7R1.model.last_intervention_time = 100 ∧
    (102 : ℚ) - c7R1.model.last_intervention_time ≤ 8 ∧
    c7R2.resp.intervention ≠ none := by
  refine ⟨rfl, rfl, ?_, ?_, ?_, ?_, ?_, ?_, ?_⟩ <;>
    · norm_num [c7R1, c7R2, c7Model, analyze_focus, initStudentModel,
        pushFrame, frameOf, stable_distracted, stable_type, face_ratio_of,
        smoothed_intervention, signals_of, infer_learning_event,
        should_show_intervention_of, should_log_of, log_and_adapt,
        escalate_intervention, response_of,
        LearningEventType.DISTRACTION_ENVIRONMENT,
        LearningEventType.SUSTAINED_FOCUS]
      try decide

/-- Claim C7 (amended): two consecutive ticks with the same stable
distracted status and identical distraction type, the second within 8
seconds of the last shown intervention of that type, return a null
intervention on the second tick — provided the lifetime distraction_count
after the tick's increment does not exceed 5 and the tick's inferred
learning event carries neither the suggest_break nor the simplify_content
intervention type (otherwise the break-suggestion fallback or an override
still produces a message: see the counterexample). -/
theorem cooldown_suppresses_repeat (m : StudentModel)
    (events : List LearningEvent) (face : Bool) (now : ℚ)
    (h1 : m.last_distraction_status = true)
    (h2 : stable_distracted (pushFrame m.status_history (frameOf face)) = true)
    (h3 : stable_type (pushFrame m.status_history (frameOf face)) =
      m.last_intervention_type)
    (h4 : now - m.last_intervention_time ≤ 8.0)
    (h5 : m.distraction_count + 1 ≤ 5)
    (h6 : (infer_learning_event events
        (signals_of m (pushFrame m.status_history (frameOf face)) face)
        now).1.intervention_type ≠ some "suggest_break")
    (h7 : (infer_learning_event events
        (signals_of m (pushFrame m.status_history (frameOf face)) face)
        now).1.intervention_type ≠ some "simplify_content") :
    (analyze_focus m events face now).resp.intervention = none := by
  have hss := should_show_repeat_false h1 h2 h3 h4
  unfold analyze_focus
  dsimp only
  simp only [h2, hss, response_of]
  norm_num [log_and_adapt_count]
  exact escalate_intervention_none (by omega) h6 h7

/-- Witness for C7 (amended): a user with distraction_count 2 in the same
cooldown situation gets a null intervention. -/
theorem cooldown_suppresses_repeat_witness :
    (analyze_focus c7WitnessModel [] false 101).resp.intervention = none :=
  cooldown_suppresses_repeat c7WitnessModel [] false 101 rfl
    (by norm_num [stable_distracted, face_ratio_of, pushFrame, frameOf,
      c7WitnessModel, c7Model, initStudentModel])
    (by norm_num [stable_type, face_ratio_of, pushFrame, frameOf,
      c7WitnessModel, c7Model, initStudentModel])
    (by norm_num [c7WitnessModel, c7Model, initStudentModel])
    (by norm_num [c7WitnessModel, c7Model, initStudentModel])
    (by
      norm_num [infer_learning_event, signals_of, pushFrame, frameOf,
        stable_distracted, face_ratio_of, c7WitnessModel, c7Model,
        initStudentModel, LearningEventType.DISTRACTION_ENVIRONMENT]
      decide)
    (by
      norm_num [infer_learning_event, signals_of, pushFrame, frameOf,
        stable_distracted, face_ratio_of, c7WitnessModel, c7Model,
        initStudentModel, LearningEventType.DISTRACTION_ENVIRONMENT]
      decide)

/-- The response's `distraction_level` is always the raw per-frame value:
0.8 on a no-face frame, 0.0 otherwise (src/backend/main.py:4829-4841, 5039);
the smoothed value `1 - face_ratio` only reaches the learning-event
evidence. -/
lemma analyze_focus_raw_level (m : StudentModel)
    (events : List LearningEvent) (face : Bool) (now : ℚ) :
    (analyze_focus m events face now).resp.distraction_level =
      if face then (0.0 : ℚ) else 0.8 := by
  unfold analyze_focus
  dsimp only
  split_ifs <;> simp_all [response_of]

/-- Along any run, the returned levels are pointwise the raw per-frame
levels. -/
lemma run_ticks_level (inputs : List (Bool × ℚ)) :
    ∀ (m : StudentModel) (events : List LearningEvent),
      (run_ticks m events inputs).map (fun r => r.resp.distraction_level) =
        inputs.map (fun i => if i.1 then (0.0 : ℚ) else 0.8) := by
  induction inputs with
  | nil => intro m events; rfl
  | cons i rest ih =>
    intro m events
    obtain ⟨face, now⟩ := i
    simp [run_ticks, analyze_focus_raw_level, ih]

/-- Counterexample to claim C8 as stated: in the 10-tick all-no-face
scenario every tick returns distraction_level 0.8 — the raw per-frame value
(src/backend/main.py:4833, 5039) — not the claimed 1.0 (which is only the
smoothed `1 - face_ratio` placed inside the learning-event evidence). -/
theorem no_face_scenario_counterexample :
    c8Results.map (fun r => r.resp.distraction_level) =
      List.replicate 10 (0.8 : ℚ) ∧ (0.8 : ℚ) ≠ 1.0 := by
  constructor
  · rw [c8Results, run_ticks_level]
    norm_num [c8Inputs, List.replicate]
  · norm_num

set_option maxHeartbeats 4000000 in
/-- Claim C8 (amended): a user with no prior history submitting 10
consecutive no-face frames, here at 10-second intervals (so that the
8-second same-type cooldown never suppresses), gets the stable result
distraction_type="looking_away" on every tick with returned
distraction_level = 0.8 (the raw per-frame level; the smoothed level 1.0
appears only inside the learning-event evidence), a null intervention on
ticks 1-2, and an intervention message on the 3rd and every subsequent
tick. -/
theorem no_face_scenario_amended :
    c8Results.map (fun r =>
        (r.resp.distraction_detected, r.resp.distraction_type,
          r.resp.distraction_level)) =
      List.replicate 10 (true, some "looking_away", (0.8 : ℚ))
    ∧ c8Results.map (fun r => r.resp.intervention.isSome) =
      [false, false, true, true, true, true, true, true, true, true] := by
  constructor <;>
  · norm_num [c8Results, c8Inputs, run_ticks, analyze_focus,
      initStudentModel, pushFrame, frameOf, stable_distracted, stable_type,
      face_ratio_of, smoothed_intervention, signals_of,
      infer_learning_event, should_show_intervention_of, should_log_of,
      log_and_adapt_false, log_and_adapt_count, log_and_adapt_status_history,
      log_and_adapt_last_distraction_status,
      log_and_adapt_last_intervention_time,
      log_and_adapt_last_intervention_type,
      log_and_adapt_current_content_time, log_and_adapt_interaction_count,
      log_and_adapt_last_log_time, escalate_intervention, response_of,
      List.replicate, LearningEventType.DISTRACTION_ENVIRONMENT,
      LearningEventType.SUSTAINED_FOCUS,
      LearningEventType.COGNITIVE_OVERLOAD, LearningEventType.RECOVERY]
    try decide

end StudyHub
